import Mathlib

/-!
A verification development for the scrobble-vault incremental sync engine
(backend/scrobble_vault).  The Python source is shallowly embedded: each
relevant Python function becomes an executable Lean definition, PostgreSQL
tables become lists of row structures, the Last.fm HTTP API becomes an
oracle parameter, and the one cross-call mutable piece of state (the rate
limiter clock) becomes explicit state passing over rational time.
-/

namespace ScrobbleVault

/-- The whitespace set stripped by `str.strip()` (restricted to the ASCII
whitespace characters; the claims never turn on exotic Unicode spaces). -/
def isWsChar (c : Char) : Bool := c = ' ' ∨ c = '\t' ∨ c = '\n' ∨ c = '\r'

/-- ASCII lowercasing of one character, as `str.lower()` acts on the
ASCII range (the claims never turn on non-ASCII case folding). -/
def lowerChar (c : Char) : Char :=
  if 'A' ≤ c ∧ c ≤ 'Z' then Char.ofNat (c.toNat + 32) else c

/-- Strip leading and trailing whitespace from a character list. -/
def trimChars (l : List Char) : List Char :=
  ((l.dropWhile isWsChar).reverse.dropWhile isWsChar).reverse

/-- Python `text.strip().lower()` as used by every `normalize` helper in
db/artist.py, db/album.py, db/track.py, db/scrobble.py and the services,
implemented over the character list so that it evaluates inside the
kernel. -/
def normalize (s : String) : String := ⟨(trimChars s.data).map lowerChar⟩

/-- Python `x or None` applied to an optional string: the empty string is
falsy and collapses to `None`. -/
def pyOrNone : Option String → Option String
  | some s => if s = "" then none else some s
  | none => none

/-- One item of Last.fm user.getRecentTracks, with the fields the sync
pipeline reads.  `artistText` is `track['artist']['#text']` (default `''`),
`name` is `track['name']`, `uts` is `int(track['date']['uts'])` (default 0),
`hasAttr` records whether the item carries an `'@attr'` key (the marker of
a now-playing entry, filtered in services/last_fm.py). -/
structure Scrobble where
  artistText : String
  artistMbid : Option String
  name : String
  mbid : Option String
  albumText : String
  albumMbid : Option String
  uts : Nat
  hasAttr : Bool
deriving DecidableEq, Repr

/-- The `'artist'` object of an artist.getInfo response, restricted to the
fields that drive control flow and identity in db/artist.py
(`artist_info.get('name', '')` and `artist_info.get('mbid')`); the
metadata-only columns (images, stats, bio, tags, embedding) do not affect
any insert decision and are elided. -/
structure ArtistInfo where
  name : String
  mbid : Option String
deriving DecidableEq, Repr

/-- The `'album'` object of an album.getInfo response, restricted to the
fields driving identity and the artist foreign key in db/album.py:
`album_info.get('name', '')`, `album_info.get('artist', '')`,
`album_info.get('mbid')`.  Metadata-only columns are elided. -/
structure AlbumInfo where
  name : String
  artist : String
  mbid : Option String
deriving DecidableEq, Repr

/-- The `'track'` object of a track.getInfo response, restricted to the
fields driving identity and the foreign keys in db/track.py:
`track_info.get('name', '')`, `track_info.get('mbid')`,
`track_info['artist']['name']`, `track_info['album'].get('title')` and
`track_info['album'].get('artist')`.  Metadata-only columns are elided. -/
structure TrackInfo where
  name : String
  mbid : Option String
  artistName : String
  albumTitle : Option String
  albumArtist : Option String
deriving DecidableEq, Repr

/-- A row of the `artists` table: the columns that carry identity
(`artist_name_norm`, unique index `artists_unique_identity`) plus the
display name and mbid.  Metadata-only columns are elided. -/
structure ArtistRow where
  name : String
  nameNorm : String
  mbid : Option String
deriving DecidableEq, Repr

/-- A row of the `albums` table: identity columns
(`artist_name_norm`, `album_name_norm`, unique index
`albums_unique_identity`) plus the artist FK and mbid. -/
structure AlbumRow where
  name : String
  nameNorm : String
  mbid : Option String
  artistId : Option Nat
  artistName : String
  artistNameNorm : String
deriving DecidableEq, Repr

/-- A row of the `tracks` table: identity columns
(`artist_name_norm`, `track_name_norm`, unique index
`tracks_unique_identity`) plus the artist and album FKs and mbid. -/
structure TrackRow where
  name : String
  nameNorm : String
  mbid : Option String
  artistId : Option Nat
  artistName : String
  artistNameNorm : String
  albumId : Option Nat
deriving DecidableEq, Repr

/-- A row of the `scrobbles` table (all five data columns of
db/scrobble.py; `track_id` is nullable). -/
structure ScrobbleRow where
  trackId : Option Nat
  listenedAt : Nat
  artistName : String
  trackName : String
  albumName : Option String
deriving DecidableEq, Repr

/-- The relational store: one list per table (rows in insertion order;
SERIAL ids are modelled as list indices) and the single
`sync_lastfm` checkpoint row (`none` while the row does not exist). -/
structure DB where
  artists : List ArtistRow
  albums : List AlbumRow
  tracks : List TrackRow
  scrobbles : List ScrobbleRow
  syncRow : Option Nat
deriving DecidableEq, Repr

def emptyDB : DB := ⟨[], [], [], [], none⟩

/-- `SELECT id FROM artists WHERE artist_name_norm = $1` (ids are list
indices). -/
def lookupArtistId (db : DB) (norm : String) : Option Nat :=
  db.artists.findIdx? (fun r => decide (r.nameNorm = norm))

/-- `SELECT id FROM albums WHERE artist_name_norm = $1 AND album_name_norm = $2`. -/
def lookupAlbumId (db : DB) (artistNorm nameNorm : String) : Option Nat :=
  db.albums.findIdx? (fun r => decide (r.artistNameNorm = artistNorm ∧ r.nameNorm = nameNorm))

/-- `SELECT id FROM tracks WHERE artist_name_norm = $1 AND track_name_norm = $2`. -/
def lookupTrackId (db : DB) (artistNorm nameNorm : String) : Option Nat :=
  db.tracks.findIdx? (fun r => decide (r.artistNameNorm = artistNorm ∧ r.nameNorm = nameNorm))

/-- Whether some artist row already has the given normalized name. -/
def artistHasNorm (db : DB) (norm : String) : Bool :=
  db.artists.any (fun r => decide (r.nameNorm = norm))

/-- `artist_exists` of db/artist.py. -/
def artistExists (db : DB) (artistName : String) : Bool :=
  artistHasNorm db (normalize artistName)

/-- Whether some album row already has the given normalized identity. -/
def albumHasNorm (db : DB) (artistNorm nameNorm : String) : Bool :=
  db.albums.any (fun r => decide (r.artistNameNorm = artistNorm ∧ r.nameNorm = nameNorm))

/-- `album_exists` of db/album.py. -/
def albumExists (db : DB) (artistName albumName : String) : Bool :=
  albumHasNorm db (normalize artistName) (normalize albumName)

/-- Whether some track row already has the given normalized identity. -/
def trackHasNorm (db : DB) (artistNorm nameNorm : String) : Bool :=
  db.tracks.any (fun r => decide (r.artistNameNorm = artistNorm ∧ r.nameNorm = nameNorm))

/-- `track_exists` of db/track.py. -/
def trackExists (db : DB) (artistName trackName : String) : Bool :=
  trackHasNorm db (normalize artistName) (normalize trackName)

/-- `insert_artist` of db/artist.py: the row's identity key
`artist_name_norm` is `normalize(artist_info.get('name', ''))`, the insert
is `ON CONFLICT (artist_name_norm) DO NOTHING`.  The embedding call before
the insert does not affect storage decisions and is elided. -/
def insertArtist (db : DB) (info : ArtistInfo) : DB :=
  let row : ArtistRow := ⟨info.name, normalize info.name, pyOrNone info.mbid⟩
  if artistHasNorm db row.nameNorm then db
  else { db with artists := db.artists ++ [row] }

/-- `insert_album` of db/album.py: resolves the artist FK by
`artist_name_norm` lookup (absent parent gives a NULL FK), inserts with
`ON CONFLICT (artist_name_norm, album_name_norm) DO NOTHING`. -/
def insertAlbum (db : DB) (info : AlbumInfo) : DB :=
  let artistName := info.artist
  let artistId := lookupArtistId db (normalize artistName)
  let row : AlbumRow :=
    ⟨info.name, normalize info.name, pyOrNone info.mbid, artistId, artistName,
      normalize artistName⟩
  if albumHasNorm db row.artistNameNorm row.nameNorm then db
  else { db with albums := db.albums ++ [row] }

/-- `insert_track` of db/track.py: resolves the artist FK by normalized
artist name, the album FK by normalized
(`album.get('artist') or artist['name']`, `album['title']`) when a title
is present, and inserts with
`ON CONFLICT (artist_name_norm, track_name_norm) DO NOTHING`. -/
def insertTrack (db : DB) (info : TrackInfo) : DB :=
  let artistName := info.artistName
  let artistId := lookupArtistId db (normalize artistName)
  let albumTitle := pyOrNone info.albumTitle
  let albumArtistName :=
    match pyOrNone info.albumArtist with
    | some a => a
    | none => artistName
  let albumId :=
    match albumTitle with
    | none => none
    | some t => lookupAlbumId db (normalize albumArtistName) (normalize t)
  let row : TrackRow :=
    ⟨info.name, normalize info.name, pyOrNone info.mbid, artistId, artistName,
      normalize artistName, albumId⟩
  if trackHasNorm db row.artistNameNorm row.nameNorm then db
  else { db with tracks := db.tracks ++ [row] }

/-- The mandatory-field check of `insert_scrobble`
(`if not artist_name or not track_name or not listened_at`). -/
def scrobbleRejected (s : Scrobble) : Bool :=
  decide (s.artistText = "" ∨ s.name = "" ∨ s.uts = 0)

/-- The conflict test of the `scrobbles` insert.  The unique index
`scrobbles_unique_listen (track_id, listened_at)` has a nullable first
column; under PostgreSQL's default NULLS-DISTINCT semantics a row whose
`track_id` is NULL never conflicts with any existing row, so the
`ON CONFLICT ... DO NOTHING` arbiter only fires when both track ids are
non-null and equal. -/
def scrobbleConflicts (db : DB) (trackId : Option Nat) (listenedAt : Nat) : Bool :=
  db.scrobbles.any (fun r =>
    match r.trackId, trackId with
    | some a, some b => decide (a = b ∧ r.listenedAt = listenedAt)
    | _, _ => false)

/-- `insert_scrobble` of db/scrobble.py: reject on missing mandatory
fields, resolve the track FK by the scrobble's own normalized names, then
`INSERT ... ON CONFLICT (track_id, listened_at) DO NOTHING`. -/
def insertScrobble (db : DB) (s : Scrobble) : DB :=
  if scrobbleRejected s then db
  else
    let trackId := lookupTrackId db (normalize s.artistText) (normalize s.name)
    let row : ScrobbleRow :=
      ⟨trackId, s.uts, s.artistText, s.name, pyOrNone (some s.albumText)⟩
    if scrobbleConflicts db trackId s.uts then db
    else { db with scrobbles := db.scrobbles ++ [row] }

/-- `init_sync_table` of db.py: `CREATE TABLE IF NOT EXISTS` followed by
`INSERT ... VALUES ('last_sync_time', 0, 0) ON CONFLICT (key) DO NOTHING`,
i.e. a missing checkpoint row is seeded with value 0. -/
def initSyncTable (db : DB) : DB :=
  match db.syncRow with
  | none => { db with syncRow := some 0 }
  | some _ => db

/-- `get_last_synced_scrobble` of db.py: the row's value, or None when the
row does not exist. -/
def getLastSyncedScrobble (db : DB) : Option Nat := db.syncRow

/-- `update_last_synced_scrobble` of db.py: `UPDATE sync_lastfm SET value =
$1 WHERE key = 'last_sync_time'` — a plain UPDATE, affecting the row only
if it exists. -/
def updateLastSyncedScrobble (t : Nat) (db : DB) : DB :=
  { db with syncRow := db.syncRow.map (fun _ => t) }

/-! ## The Last.fm client (services/last_fm.py) -/

/-- The request shape of `fetch_artist_info`: either `mbid` alone or
`artist` (the name parameter). -/
inductive ArtistQuery
  | byMbid (m : String)
  | byName (artist : String)
deriving DecidableEq, Repr

/-- The request shape of `fetch_album_info`. -/
inductive AlbumQuery
  | byMbid (m : String)
  | byName (artist album : String)
deriving DecidableEq, Repr

/-- The request shape of `fetch_track_info`. -/
inductive TrackQuery
  | byMbid (m : String)
  | byName (artist track : String)
deriving DecidableEq, Repr

/-- The parameter logic of `fetch_artist_info`: `if mbid:` (truthy) the
lookup is by mbid; else a falsy artist name is invalid (logged, `{}`
returned, no request issued); else the lookup is by name. -/
def artistInfoQuery (artist : String) (mbid : Option String) : Option ArtistQuery :=
  match mbid with
  | some m =>
      if m = "" then
        if artist = "" then none else some (.byName artist)
      else some (.byMbid m)
  | none => if artist = "" then none else some (.byName artist)

/-- The parameter logic of `fetch_album_info`. -/
def albumInfoQuery (artist album : String) (mbid : Option String) : Option AlbumQuery :=
  match mbid with
  | some m =>
      if m = "" then
        if artist = "" ∨ album = "" then none else some (.byName artist album)
      else some (.byMbid m)
  | none => if artist = "" ∨ album = "" then none else some (.byName artist album)

/-- The parameter logic of `fetch_track_info`. -/
def trackInfoQuery (artist track : String) (mbid : Option String) : Option TrackQuery :=
  match mbid with
  | some m =>
      if m = "" then
        if artist = "" ∨ track = "" then none else some (.byName artist track)
      else some (.byMbid m)
  | none => if artist = "" ∨ track = "" then none else some (.byName artist track)

/-- Outcome of one rate-limited GET for an entity-metadata lookup:
a transport failure (`aiohttp.ClientError`), or an HTTP status together
with the relevant payload object (`none` when the response decodes to no
usable `'artist'`/`'album'`/`'track'` object). -/
inductive MetaResp (α : Type)
  | netError
  | resp (status : Nat) (payload : Option α)
deriving DecidableEq, Repr

/-- The result-handling of `fetch_track_info` / `fetch_album_info` /
`fetch_artist_info`: transport errors and JSON decode errors are caught and
logged, any non-200 status falls through — all of these return `{}` (here
`none`); only a 200 response yields its payload. -/
def metaResult {α : Type} : MetaResp α → Option α
  | .netError => none
  | .resp status payload => if status = 200 then payload else none

/-- The `'recenttracks'` object of one user.getRecentTracks page:
`track` is the track list (`none` models an absent or non-list `'track'`
value), `totalPages` is `int(attr.get('totalPages', '1'))`. -/
structure RecentTracks where
  track : Option (List Scrobble)
  totalPages : Nat
deriving DecidableEq, Repr

/-- One decoded page body; `recenttracks = none` models a body without a
`'recenttracks'` key. -/
structure PageBody where
  recenttracks : Option RecentTracks
deriving DecidableEq, Repr

/-- Outcome of one rate-limited GET during pagination: a transport failure,
or an HTTP status with the decoded JSON body (`none` when `.json()`
raises). -/
inductive PageResp
  | netError
  | resp (status : Nat) (body : Option PageBody)
deriving DecidableEq, Repr

/-- The errors `fetch_last_fm_data` can raise: a transport error from the
GET, the explicit `raise Exception` on a non-200 status, a JSON decode
error, plus fuel exhaustion (an artifact of embedding the unbounded
`while True` loop). -/
inductive FetchErr
  | network
  | api (status : Nat)
  | jsonDecode
  | fuelOut
deriving DecidableEq, Repr

/-- The `while True` pagination loop of `fetch_last_fm_data`, one
constructor case per iteration.  Returns the accumulated (now-playing
filtered) tracks or the raised error, paired with the list of page numbers
actually requested.  Order of checks mirrors the source: status, JSON
decoding, missing `'recenttracks'` (break), empty or non-list `'track'`
(break), accumulate filtered tracks, then `page >= total_pages` (break)
else next page. -/
def fetchPagesLoop (pages : Nat → PageResp) :
    Nat → Nat → List Scrobble → List Nat → Except FetchErr (List Scrobble) × List Nat
  | 0, _, _, reqs => (.error .fuelOut, reqs)
  | fuel + 1, page, acc, reqs =>
    let reqs' := reqs ++ [page]
    match pages page with
    | .netError => (.error .network, reqs')
    | .resp status body? =>
      if status = 200 then
        match body? with
        | none => (.error .jsonDecode, reqs')
        | some body =>
          match body.recenttracks with
          | none => (.ok acc, reqs')
          | some rt =>
            match rt.track with
            | none => (.ok acc, reqs')
            | some tracks =>
              if tracks.isEmpty then (.ok acc, reqs')
              else
                let acc' := acc ++ tracks.filter (fun t => !t.hasAttr)
                if rt.totalPages ≤ page then (.ok acc', reqs')
                else fetchPagesLoop pages fuel (page + 1) acc' reqs'
      else (.error (.api status), reqs')

/-- `fetch_last_fm_data`: start at page 1 with an empty accumulator.  The
page oracle stands for the upstream feed of the requested window. -/
def fetchLastFmData (pages : Nat → PageResp) (fuel : Nat) :
    Except FetchErr (List Scrobble) × List Nat :=
  fetchPagesLoop pages fuel 1 [] []

/-- The upstream API, as one oracle per endpoint.  All four endpoints go
through the same rate-limited GET in the source; the time behaviour of
that gate is modelled separately below. -/
structure Oracles where
  pages : Nat → PageResp
  artist : ArtistQuery → MetaResp ArtistInfo
  album : AlbumQuery → MetaResp AlbumInfo
  track : TrackQuery → MetaResp TrackInfo

/-! ## Entity resolvers (services/sync_new_*.py) -/

/-- The per-key payload accumulated by `sync_new_artists`
(`{'name': ..., 'mbid': ...}`). -/
structure ArtistPayload where
  name : String
  mbid : Option String
deriving DecidableEq, Repr

/-- One step of the extraction loop of `sync_new_artists`: skip falsy
names; a fresh normalized key is appended with the reference's display
name and mbid; an existing key only has its mbid filled when it was None
and the new reference carries one (first non-null mbid wins, name of the
first occurrence kept, dict insertion order preserved). -/
def artistRefStep (acc : List (String × ArtistPayload)) (s : Scrobble) :
    List (String × ArtistPayload) :=
  let artistName := s.artistText
  let artistMbid := pyOrNone s.artistMbid
  if artistName = "" then acc
  else
    let key := normalize artistName
    match acc.find? (fun kp => decide (kp.1 = key)) with
    | none => acc ++ [(key, ⟨artistName, artistMbid⟩)]
    | some kp =>
      if kp.2.mbid = none ∧ artistMbid ≠ none then
        acc.map (fun kp' => if kp'.1 = key then (kp'.1, ⟨kp'.2.name, artistMbid⟩) else kp')
      else acc

/-- The `unique_artists` dict of `sync_new_artists` as an association
list in insertion order. -/
def uniqueArtists (scrobbles : List Scrobble) : List (String × ArtistPayload) :=
  scrobbles.foldl artistRefStep []

/-- One step of the extraction loop of `sync_new_albums`: key is the
normalized (artist, album) pair, value the first non-null album mbid. -/
def albumRefStep (acc : List ((String × String) × Option String)) (s : Scrobble) :
    List ((String × String) × Option String) :=
  let artistName := s.artistText
  let albumName := s.albumText
  let albumMbid := pyOrNone s.albumMbid
  if artistName = "" ∨ albumName = "" then acc
  else
    let key := (normalize artistName, normalize albumName)
    match acc.find? (fun kp => decide (kp.1 = key)) with
    | none => acc ++ [(key, albumMbid)]
    | some kp =>
      if kp.2 = none ∧ albumMbid ≠ none then
        acc.map (fun kp' => if kp'.1 = key then (kp'.1, albumMbid) else kp')
      else acc

/-- The `unique_albums` dict of `sync_new_albums`. -/
def uniqueAlbums (scrobbles : List Scrobble) : List ((String × String) × Option String) :=
  scrobbles.foldl albumRefStep []

/-- One step of the extraction loop of `sync_new_tracks`: key is the
normalized (artist, track) pair, value the first non-null track mbid. -/
def trackRefStep (acc : List ((String × String) × Option String)) (s : Scrobble) :
    List ((String × String) × Option String) :=
  let artistName := s.artistText
  let trackName := s.name
  let mbid := pyOrNone s.mbid
  if artistName = "" ∨ trackName = "" then acc
  else
    let key := (normalize artistName, normalize trackName)
    match acc.find? (fun kp => decide (kp.1 = key)) with
    | none => acc ++ [(key, mbid)]
    | some kp =>
      if kp.2 = none ∧ mbid ≠ none then
        acc.map (fun kp' => if kp'.1 = key then (kp'.1, mbid) else kp')
      else acc

/-- The `unique_tracks` dict of `sync_new_tracks`. -/
def uniqueTracks (scrobbles : List Scrobble) : List ((String × String) × Option String) :=
  scrobbles.foldl trackRefStep []

/-- The observable operations of a sync cycle, in program order: page GETs
(with the window parameters they carry), metadata GETs, insert calls, and
the checkpoint advance. -/
inductive Op
  | getPage (windowStart windowEnd page : Nat)
  | fetchArtist (q : ArtistQuery)
  | insArtist (info : ArtistInfo)
  | fetchAlbum (q : AlbumQuery)
  | insAlbum (info : AlbumInfo)
  | fetchTrack (q : TrackQuery)
  | insTrack (info : TrackInfo)
  | insScrobble (s : Scrobble)
  | advance (t : Nat)
deriving DecidableEq, Repr

/-- The fetch-and-store loop of `sync_new_artists`:
`artist_name = payload.get('name') or artist_name_norm`, fetch (errors
swallowed into an empty result), insert only when the result is truthy,
otherwise a warning and the loop continues. -/
def runArtistFetches (o : Oracles) : List (String × ArtistPayload) → DB → DB × List Op
  | [], db => (db, [])
  | kp :: rest, db =>
    let artistName := if kp.2.name = "" then kp.1 else kp.2.name
    match artistInfoQuery artistName kp.2.mbid with
    | none => runArtistFetches o rest db
    | some q =>
      match metaResult (o.artist q) with
      | some info =>
        let r := runArtistFetches o rest (insertArtist db info)
        (r.1, .fetchArtist q :: .insArtist info :: r.2)
      | none =>
        let r := runArtistFetches o rest db
        (r.1, .fetchArtist q :: r.2)

/-- `sync_new_artists`: extract and fold references, drop keys whose
(display-name based) existence check hits, then fetch and insert the
rest. -/
def syncNewArtists (o : Oracles) (scrobbles : List Scrobble) (db : DB) : DB × List Op :=
  let uniq := uniqueArtists scrobbles
  let newA := uniq.filter
    (fun kp => !(artistExists db (if kp.2.name = "" then kp.1 else kp.2.name)))
  runArtistFetches o newA db

/-- The fetch-and-store loop of `sync_new_albums`; the names passed to the
fetch are the normalized key components. -/
def runAlbumFetches (o : Oracles) : List ((String × String) × Option String) → DB → DB × List Op
  | [], db => (db, [])
  | kp :: rest, db =>
    match albumInfoQuery kp.1.1 kp.1.2 kp.2 with
    | none => runAlbumFetches o rest db
    | some q =>
      match metaResult (o.album q) with
      | some info =>
        let r := runAlbumFetches o rest (insertAlbum db info)
        (r.1, .fetchAlbum q :: .insAlbum info :: r.2)
      | none =>
        let r := runAlbumFetches o rest db
        (r.1, .fetchAlbum q :: r.2)

/-- `sync_new_albums`. -/
def syncNewAlbums (o : Oracles) (scrobbles : List Scrobble) (db : DB) : DB × List Op :=
  let uniq := uniqueAlbums scrobbles
  let newAl := uniq.filter (fun kp => !(albumExists db kp.1.1 kp.1.2))
  runAlbumFetches o newAl db

/-- The fetch-and-store loop of `sync_new_tracks`; the names passed to the
fetch are the normalized key components. -/
def runTrackFetches (o : Oracles) : List ((String × String) × Option String) → DB → DB × List Op
  | [], db => (db, [])
  | kp :: rest, db =>
    match trackInfoQuery kp.1.1 kp.1.2 kp.2 with
    | none => runTrackFetches o rest db
    | some q =>
      match metaResult (o.track q) with
      | some info =>
        let r := runTrackFetches o rest (insertTrack db info)
        (r.1, .fetchTrack q :: .insTrack info :: r.2)
      | none =>
        let r := runTrackFetches o rest db
        (r.1, .fetchTrack q :: r.2)

/-- `sync_new_tracks`. -/
def syncNewTracks (o : Oracles) (scrobbles : List Scrobble) (db : DB) : DB × List Op :=
  let uniq := uniqueTracks scrobbles
  let newT := uniq.filter (fun kp => !(trackExists db kp.1.1 kp.1.2))
  runTrackFetches o newT db

/-- The `for scrobble in scrobbles: await insert_scrobble(scrobble)` loop
of `sync_scrobble_vault`. -/
def runScrobbleInserts : List Scrobble → DB → DB × List Op
  | [], db => (db, [])
  | s :: rest, db =>
    let r := runScrobbleInserts rest (insertScrobble db s)
    (r.1, .insScrobble s :: r.2)

/-- `max(int(s['date']['uts']) for s in scrobbles)` — equal to Python's
`max` on the nonempty lists on which the source evaluates it. -/
def maxUts (l : List Scrobble) : Nat := (l.map (fun s => s.uts)).foldl Nat.max 0

/-- `sync_scrobble_vault` of services/sync_scrobbles.py: initialize the
schema (which seeds the checkpoint row), compute the window start
(`0` when the checkpoint read is absent, else checkpoint + 1), fetch all
events of the window, and — only when at least one event was fetched —
resolve artists, then albums, then tracks, store every event, and advance
the checkpoint to the maximum fetched `uts`.  Returns the raised error (if
any), the resulting store, and the trace of operations. -/
def syncScrobbleVault (o : Oracles) (fuel now : Nat) (db0 : DB) :
    Option FetchErr × DB × List Op :=
  let db := initSyncTable db0
  let startingTime :=
    match getLastSyncedScrobble db with
    | none => 0
    | some t => t + 1
  let fr := fetchLastFmData o.pages fuel
  let pageOps := fr.2.map (fun p => Op.getPage startingTime now p)
  match fr.1 with
  | .error e => (some e, db, pageOps)
  | .ok scrobbles =>
    if scrobbles.isEmpty then (none, db, pageOps)
    else
      let r1 := syncNewArtists o scrobbles db
      let r2 := syncNewAlbums o scrobbles r1.1
      let r3 := syncNewTracks o scrobbles r2.1
      let r4 := runScrobbleInserts scrobbles r3.1
      let latest := maxUts scrobbles
      let d5 := updateLastSyncedScrobble latest r4.1
      (none, d5, pageOps ++ r1.2 ++ r2.2 ++ r3.2 ++ r4.2 ++ [.advance latest])

/-! ## The global rate-limit gate (`_rate_limited_get`)

The `asyncio.Lock` serializes the read-wait-update section process-wide,
so concurrent callers execute it one after another; each run of the
section is one `gateCall`.  Time is rational seconds (`time.monotonic`),
the interval is `env.RATE_LIMIT_MS` milliseconds.  `slack` is the
non-negative extra delay of `asyncio.sleep` and of re-reading the clock
(both can only land at or after the requested instant on a monotone
clock). -/

/-- The mutable `_last_request_time` guarded by the lock. -/
structure GateState where
  lastRequestTime : ℚ
deriving DecidableEq, Repr

/-- One serialized execution of the critical section of
`_rate_limited_get`: compute the elapsed milliseconds since the recorded
last request, sleep out the remainder of the interval if positive, then
record a fresh clock reading and issue the GET at that instant.  Returns
the start time of the GET and the updated gate state. -/
def gateCall (rateLimitMs : ℚ) (st : GateState) (now slack : ℚ) : ℚ × GateState :=
  let elapsedMs := (now - st.lastRequestTime) * 1000
  let waitMs := rateLimitMs - elapsedMs
  let start := if 0 < waitMs then now + waitMs / 1000 + slack else now + slack
  (start, ⟨start⟩)

/-- The start times of a sequence of gated calls, each described by the
clock reading at entry and its sleep/reschedule slack. -/
def gateStarts (rateLimitMs : ℚ) : GateState → List (ℚ × ℚ) → List ℚ
  | _, [] => []
  | st, (now, slack) :: rest =>
    let c := gateCall rateLimitMs st now slack
    c.1 :: gateStarts rateLimitMs c.2 rest

/-- Well-formedness of a call sequence: every slack is non-negative and,
the clock being monotone and each entry happening after the previous
recorded request time, every observed `now` is at least the gate's stored
last request time. -/
def validCalls (rateLimitMs : ℚ) : GateState → List (ℚ × ℚ) → Bool
  | _, [] => true
  | st, (now, slack) :: rest =>
    decide (0 ≤ slack) && decide (st.lastRequestTime ≤ now) &&
      validCalls rateLimitMs (gateCall rateLimitMs st now slack).2 rest

/-! ## Helper lemmas -/

theorem initSyncTable_syncRow (db : DB) :
    (initSyncTable db).syncRow = some (db.syncRow.getD 0) := by
  cases h : db.syncRow <;> simp [initSyncTable, h]

theorem insertArtist_syncRow (db : DB) (i : ArtistInfo) :
    (insertArtist db i).syncRow = db.syncRow := by
  simp only [insertArtist]
  split <;> rfl

theorem insertAlbum_syncRow (db : DB) (i : AlbumInfo) :
    (insertAlbum db i).syncRow = db.syncRow := by
  simp only [insertAlbum]
  split <;> rfl

theorem insertTrack_syncRow (db : DB) (i : TrackInfo) :
    (insertTrack db i).syncRow = db.syncRow := by
  simp only [insertTrack]
  split <;> rfl

theorem insertScrobble_syncRow (db : DB) (s : Scrobble) :
    (insertScrobble db s).syncRow = db.syncRow := by
  simp only [insertScrobble]
  split
  · rfl
  · split <;> rfl

theorem runArtistFetches_syncRow (o : Oracles) (l : List (String × ArtistPayload)) (db : DB) :
    (runArtistFetches o l db).1.syncRow = db.syncRow := by
  induction l generalizing db with
  | nil => rfl
  | cons kp rest ih =>
    rcases hq : artistInfoQuery (if kp.2.name = "" then kp.1 else kp.2.name) kp.2.mbid with _ | q
    · simp only [runArtistFetches, hq]
      exact ih db
    · rcases hm : metaResult (o.artist q) with _ | info
      · simp only [runArtistFetches, hq, hm]
        exact ih db
      · simp only [runArtistFetches, hq, hm]
        rw [ih (insertArtist db info), insertArtist_syncRow]

theorem runAlbumFetches_syncRow (o : Oracles) (l : List ((String × String) × Option String))
    (db : DB) : (runAlbumFetches o l db).1.syncRow = db.syncRow := by
  induction l generalizing db with
  | nil => rfl
  | cons kp rest ih =>
    rcases hq : albumInfoQuery kp.1.1 kp.1.2 kp.2 with _ | q
    · simp only [runAlbumFetches, hq]
      exact ih db
    · rcases hm : metaResult (o.album q) with _ | info
      · simp only [runAlbumFetches, hq, hm]
        exact ih db
      · simp only [runAlbumFetches, hq, hm]
        rw [ih (insertAlbum db info), insertAlbum_syncRow]

theorem runTrackFetches_syncRow (o : Oracles) (l : List ((String × String) × Option String))
    (db : DB) : (runTrackFetches o l db).1.syncRow = db.syncRow := by
  induction l generalizing db with
  | nil => rfl
  | cons kp rest ih =>
    rcases hq : trackInfoQuery kp.1.1 kp.1.2 kp.2 with _ | q
    · simp only [runTrackFetches, hq]
      exact ih db
    · rcases hm : metaResult (o.track q) with _ | info
      · simp only [runTrackFetches, hq, hm]
        exact ih db
      · simp only [runTrackFetches, hq, hm]
        rw [ih (insertTrack db info), insertTrack_syncRow]

theorem runScrobbleInserts_syncRow (l : List Scrobble) (db : DB) :
    (runScrobbleInserts l db).1.syncRow = db.syncRow := by
  induction l generalizing db with
  | nil => rfl
  | cons s rest ih =>
    simp only [runScrobbleInserts]
    rw [ih (insertScrobble db s), insertScrobble_syncRow]

theorem runScrobbleInserts_trace (l : List Scrobble) (db : DB) :
    (runScrobbleInserts l db).2 = l.map Op.insScrobble := by
  induction l generalizing db with
  | nil => rfl
  | cons s rest ih =>
    simp only [runScrobbleInserts, List.map_cons]
    rw [ih (insertScrobble db s)]

theorem runArtistFetches_ops (o : Oracles) (l : List (String × ArtistPayload)) (db : DB)
    (op : Op) (h : op ∈ (runArtistFetches o l db).2) :
    (∃ q, op = Op.fetchArtist q) ∨ (∃ i, op = Op.insArtist i) := by
  induction l generalizing db with
  | nil => simp [runArtistFetches] at h
  | cons kp rest ih =>
    rcases hq : artistInfoQuery (if kp.2.name = "" then kp.1 else kp.2.name) kp.2.mbid with _ | q
    · simp only [runArtistFetches, hq] at h
      exact ih db h
    · rcases hm : metaResult (o.artist q) with _ | info
      · simp only [runArtistFetches, hq, hm, List.mem_cons] at h
        rcases h with rfl | h
        · exact .inl ⟨q, rfl⟩
        · exact ih db h
      · simp only [runArtistFetches, hq, hm, List.mem_cons] at h
        rcases h with rfl | rfl | h
        · exact .inl ⟨q, rfl⟩
        · exact .inr ⟨info, rfl⟩
        · exact ih (insertArtist db info) h

theorem runAlbumFetches_ops (o : Oracles) (l : List ((String × String) × Option String))
    (db : DB) (op : Op) (h : op ∈ (runAlbumFetches o l db).2) :
    (∃ q, op = Op.fetchAlbum q) ∨ (∃ i, op = Op.insAlbum i) := by
  induction l generalizing db with
  | nil => simp [runAlbumFetches] at h
  | cons kp rest ih =>
    rcases hq : albumInfoQuery kp.1.1 kp.1.2 kp.2 with _ | q
    · simp only [runAlbumFetches, hq] at h
      exact ih db h
    · rcases hm : metaResult (o.album q) with _ | info
      · simp only [runAlbumFetches, hq, hm, List.mem_cons] at h
        rcases h with rfl | h
        · exact .inl ⟨q, rfl⟩
        · exact ih db h
      · simp only [runAlbumFetches, hq, hm, List.mem_cons] at h
        rcases h with rfl | rfl | h
        · exact .inl ⟨q, rfl⟩
        · exact .inr ⟨info, rfl⟩
        · exact ih (insertAlbum db info) h

theorem runTrackFetches_ops (o : Oracles) (l : List ((String × String) × Option String))
    (db : DB) (op : Op) (h : op ∈ (runTrackFetches o l db).2) :
    (∃ q, op = Op.fetchTrack q) ∨ (∃ i, op = Op.insTrack i) := by
  induction l generalizing db with
  | nil => simp [runTrackFetches] at h
  | cons kp rest ih =>
    rcases hq : trackInfoQuery kp.1.1 kp.1.2 kp.2 with _ | q
    · simp only [runTrackFetches, hq] at h
      exact ih db h
    · rcases hm : metaResult (o.track q) with _ | info
      · simp only [runTrackFetches, hq, hm, List.mem_cons] at h
        rcases h with rfl | h
        · exact .inl ⟨q, rfl⟩
        · exact ih db h
      · simp only [runTrackFetches, hq, hm, List.mem_cons] at h
        rcases h with rfl | rfl | h
        · exact .inl ⟨q, rfl⟩
        · exact .inr ⟨info, rfl⟩
        · exact ih (insertTrack db info) h

theorem syncNewArtists_syncRow (o : Oracles) (evs : List Scrobble) (db : DB) :
    (syncNewArtists o evs db).1.syncRow = db.syncRow :=
  runArtistFetches_syncRow o _ db

theorem syncNewAlbums_syncRow (o : Oracles) (evs : List Scrobble) (db : DB) :
    (syncNewAlbums o evs db).1.syncRow = db.syncRow :=
  runAlbumFetches_syncRow o _ db

theorem syncNewTracks_syncRow (o : Oracles) (evs : List Scrobble) (db : DB) :
    (syncNewTracks o evs db).1.syncRow = db.syncRow :=
  runTrackFetches_syncRow o _ db

theorem syncNewArtists_ops (o : Oracles) (evs : List Scrobble) (db : DB) (op : Op)
    (h : op ∈ (syncNewArtists o evs db).2) :
    (∃ q, op = Op.fetchArtist q) ∨ (∃ i, op = Op.insArtist i) :=
  runArtistFetches_ops o _ db op h

theorem syncNewAlbums_ops (o : Oracles) (evs : List Scrobble) (db : DB) (op : Op)
    (h : op ∈ (syncNewAlbums o evs db).2) :
    (∃ q, op = Op.fetchAlbum q) ∨ (∃ i, op = Op.insAlbum i) :=
  runAlbumFetches_ops o _ db op h

theorem syncNewTracks_ops (o : Oracles) (evs : List Scrobble) (db : DB) (op : Op)
    (h : op ∈ (syncNewTracks o evs db).2) :
    (∃ q, op = Op.fetchTrack q) ∨ (∃ i, op = Op.insTrack i) :=
  runTrackFetches_ops o _ db op h

/-- Unfolding of a successful, nonempty cycle: the resolve phases run in
artist-album-track order, every event is passed to `insert_scrobble`, and
the checkpoint is updated to the maximum fetched `uts` at the very end. -/
theorem syncScrobbleVault_ok_unfold (o : Oracles) (fuel now : Nat) (db : DB)
    (evs : List Scrobble) (hf : (fetchLastFmData o.pages fuel).1 = Except.ok evs)
    (hne : evs ≠ []) :
    syncScrobbleVault o fuel now db =
      (none,
        updateLastSyncedScrobble (maxUts evs)
          (runScrobbleInserts evs
            (syncNewTracks o evs
              (syncNewAlbums o evs (syncNewArtists o evs (initSyncTable db)).1).1).1).1,
        (fetchLastFmData o.pages fuel).2.map
            (fun p => Op.getPage (db.syncRow.getD 0 + 1) now p)
          ++ (syncNewArtists o evs (initSyncTable db)).2
          ++ (syncNewAlbums o evs (syncNewArtists o evs (initSyncTable db)).1).2
          ++ (syncNewTracks o evs
                (syncNewAlbums o evs (syncNewArtists o evs (initSyncTable db)).1).1).2
          ++ (runScrobbleInserts evs
                (syncNewTracks o evs
                  (syncNewAlbums o evs (syncNewArtists o evs (initSyncTable db)).1).1).1).2
          ++ [Op.advance (maxUts evs)]) := by
  have hempty : evs.isEmpty = false := by
    cases evs with
    | nil => exact absurd rfl hne
    | cons a l => rfl
  have hstart : getLastSyncedScrobble (initSyncTable db) = some (db.syncRow.getD 0) := by
    rw [getLastSyncedScrobble, initSyncTable_syncRow]
  simp only [syncScrobbleVault, hf, hempty, hstart, Bool.false_eq_true, if_false]

/-! ## Claims -/

/-- C2.  Whenever a cycle fetches at least one event and completes
successfully, the checkpoint is advanced exactly once (a single `advance`
operation, the last of the trace, none earlier), only after every fetched
event has been passed to the event store, and the value written is the
maximum `occurredAt` (`uts`) among the cycle's fetched events — not the
current time and not the window end. -/
theorem c2_checkpoint_advance (o : Oracles) (fuel now : Nat) (db : DB)
    (evs : List Scrobble) (hf : (fetchLastFmData o.pages fuel).1 = Except.ok evs)
    (hne : evs ≠ []) :
    (syncScrobbleVault o fuel now db).1 = none ∧
    ∃ pre, (syncScrobbleVault o fuel now db).2.2 = pre ++ [Op.advance (maxUts evs)] ∧
      (∀ t, Op.advance t ∉ pre) ∧
      (∀ s ∈ evs, Op.insScrobble s ∈ pre) ∧
      (syncScrobbleVault o fuel now db).2.1.syncRow = some (maxUts evs) := by
  rw [syncScrobbleVault_ok_unfold o fuel now db evs hf hne]
  refine ⟨rfl, _, rfl, ?_, ?_, ?_⟩
  · intro t ht
    simp only [List.mem_append] at ht
    rcases ht with ht | ht
    rcases ht with ht | ht
    rcases ht with ht | ht
    rcases ht with ht | ht
    · obtain ⟨p, _, hp⟩ := List.mem_map.1 ht
      exact Op.noConfusion hp
    · rcases syncNewArtists_ops o evs _ _ ht with ⟨q, hq⟩ | ⟨i, hi⟩
      · exact Op.noConfusion hq
      · exact Op.noConfusion hi
    · rcases syncNewAlbums_ops o evs _ _ ht with ⟨q, hq⟩ | ⟨i, hi⟩
      · exact Op.noConfusion hq
      · exact Op.noConfusion hi
    · rcases syncNewTracks_ops o evs _ _ ht with ⟨q, hq⟩ | ⟨i, hi⟩
      · exact Op.noConfusion hq
      · exact Op.noConfusion hi
    · rw [runScrobbleInserts_trace] at ht
      obtain ⟨s, _, hs⟩ := List.mem_map.1 ht
      exact Op.noConfusion hs
  · intro s hs
    refine List.mem_append.2 (Or.inr ?_)
    rw [runScrobbleInserts_trace]
    exact List.mem_map_of_mem _ hs
  · rw [updateLastSyncedScrobble]
    have h4 : (runScrobbleInserts evs
        (syncNewTracks o evs
          (syncNewAlbums o evs (syncNewArtists o evs (initSyncTable db)).1).1).1).1.syncRow =
        some (db.syncRow.getD 0) := by
      rw [runScrobbleInserts_syncRow, syncNewTracks_syncRow, syncNewAlbums_syncRow,
        syncNewArtists_syncRow, initSyncTable_syncRow]
    simp [h4]

/-- A completed event with timestamp 10. -/
def ev10 : Scrobble := ⟨"Artist One", none, "Song One", none, "", none, 10, false⟩

/-- A completed event with timestamp 25. -/
def ev25 : Scrobble := ⟨"Artist One", none, "Song Two", none, "", none, 25, false⟩

/-- A completed event with timestamp 17. -/
def ev17 : Scrobble := ⟨"Artist Two", none, "Song Three", none, "", none, 17, false⟩

/-- A single-page feed carrying the events with timestamps 10, 25, 17;
metadata lookups all fail at transport level (and are swallowed by the
client). -/
def oracleTs : Oracles :=
  { pages := fun p =>
      if p = 1 then .resp 200 (some ⟨some ⟨some [ev10, ev25, ev17], 1⟩⟩)
      else .resp 200 (some ⟨none⟩)
    artist := fun _ => .netError
    album := fun _ => .netError
    track := fun _ => .netError }

theorem c2_checkpoint_advance_witness :
    (syncScrobbleVault oracleTs 5 1000 emptyDB).1 = none ∧
    ∃ pre, (syncScrobbleVault oracleTs 5 1000 emptyDB).2.2 =
        pre ++ [Op.advance (maxUts [ev10, ev25, ev17])] ∧
      (∀ t, Op.advance t ∉ pre) ∧
      (∀ s ∈ [ev10, ev25, ev17], Op.insScrobble s ∈ pre) ∧
      (syncScrobbleVault oracleTs 5 1000 emptyDB).2.1.syncRow =
        some (maxUts [ev10, ev25, ev17]) :=
  c2_checkpoint_advance oracleTs 5 1000 emptyDB [ev10, ev25, ev17] rfl (by decide)

/-- One unfolding step of the pagination loop at positive fuel. -/
theorem fetchPagesLoop_succ (pages : Nat → PageResp) (fuel page : Nat) (acc : List Scrobble)
    (reqs : List Nat) :
    fetchPagesLoop pages (fuel + 1) page acc reqs =
      (let reqs' := reqs ++ [page]
       match pages page with
       | .netError => (.error .network, reqs')
       | .resp status body? =>
         if status = 200 then
           match body? with
           | none => (.error .jsonDecode, reqs')
           | some body =>
             match body.recenttracks with
             | none => (.ok acc, reqs')
             | some rt =>
               match rt.track with
               | none => (.ok acc, reqs')
               | some tracks =>
                 if tracks.isEmpty then (.ok acc, reqs')
                 else
                   let acc' := acc ++ tracks.filter (fun t => !t.hasAttr)
                   if rt.totalPages ≤ page then (.ok acc', reqs')
                   else fetchPagesLoop pages fuel (page + 1) acc' reqs'
         else (.error (.api status), reqs')) := rfl

/-- C6.  Pagination starts at page 1 and stops when the local page counter
reaches the `totalPages` of the response envelope or a page yields an
empty (or non-list) track list, the latter as end-of-stream rather than an
error.  A feed reporting `totalPages = 3` with non-empty pages 1-3 issues
exactly the three GETs for pages 1, 2, 3; a feed whose page 2 is empty
requests exactly pages 1 and 2 regardless of the reported total and still
succeeds.  (Fuel 10 bounds the embedded `while True` loop and leaves
headroom above both stopping points.) -/
theorem c6_pagination_termination (pages pagesB : Nat → PageResp)
    (t1 t2 t3 tB1 : List Scrobble) (tp tp2 : Nat)
    (h1 : pages 1 = .resp 200 (some ⟨some ⟨some t1, 3⟩⟩)) (hn1 : t1 ≠ [])
    (h2 : pages 2 = .resp 200 (some ⟨some ⟨some t2, 3⟩⟩)) (hn2 : t2 ≠ [])
    (h3 : pages 3 = .resp 200 (some ⟨some ⟨some t3, 3⟩⟩)) (hn3 : t3 ≠ [])
    (hB1 : pagesB 1 = .resp 200 (some ⟨some ⟨some tB1, tp⟩⟩)) (hnB : tB1 ≠ [])
    (htp : 1 < tp)
    (hB2 : pagesB 2 = .resp 200 (some ⟨some ⟨some [], tp2⟩⟩)) :
    (fetchLastFmData pages 10).2 = [1, 2, 3] ∧
    (∃ evs, (fetchLastFmData pages 10).1 = Except.ok evs) ∧
    (fetchLastFmData pagesB 10).2 = [1, 2] ∧
    (∃ evs, (fetchLastFmData pagesB 10).1 = Except.ok evs) := by
  have he1 : t1.isEmpty = false := by cases t1 with
    | nil => exact absurd rfl hn1
    | cons a l => rfl
  have he2 : t2.isEmpty = false := by cases t2 with
    | nil => exact absurd rfl hn2
    | cons a l => rfl
  have he3 : t3.isEmpty = false := by cases t3 with
    | nil => exact absurd rfl hn3
    | cons a l => rfl
  have heB : tB1.isEmpty = false := by cases tB1 with
    | nil => exact absurd rfl hnB
    | cons a l => rfl
  have htp' : ¬ tp ≤ 1 := by omega
  constructor
  · simp only [fetchLastFmData]
    rw [show (10:Nat) = 9 + 1 from rfl, fetchPagesLoop_succ]
    simp only [h1, he1, List.nil_append, if_true, Bool.false_eq_true, if_false]
    norm_num
    rw [show (9:Nat) = 8 + 1 from rfl, fetchPagesLoop_succ]
    simp only [h2, he2, Bool.false_eq_true, if_false]
    norm_num
    rw [show (8:Nat) = 7 + 1 from rfl, fetchPagesLoop_succ]
    simp only [h3, he3, Bool.false_eq_true, if_false]
    norm_num
  constructor
  · simp only [fetchLastFmData]
    rw [show (10:Nat) = 9 + 1 from rfl, fetchPagesLoop_succ]
    simp only [h1, he1, List.nil_append, if_true, Bool.false_eq_true, if_false]
    norm_num
    rw [show (9:Nat) = 8 + 1 from rfl, fetchPagesLoop_succ]
    simp only [h2, he2, Bool.false_eq_true, if_false]
    norm_num
    rw [show (8:Nat) = 7 + 1 from rfl, fetchPagesLoop_succ]
    simp only [h3, he3, Bool.false_eq_true, if_false]
    norm_num
  constructor
  · simp only [fetchLastFmData]
    rw [show (10:Nat) = 9 + 1 from rfl, fetchPagesLoop_succ]
    simp only [hB1, heB, List.nil_append, if_true, Bool.false_eq_true, if_false, htp']
    norm_num [htp']
    rw [show (9:Nat) = 8 + 1 from rfl, fetchPagesLoop_succ]
    simp [hB2]
  · simp only [fetchLastFmData]
    rw [show (10:Nat) = 9 + 1 from rfl, fetchPagesLoop_succ]
    simp only [hB1, heB, List.nil_append, if_true, Bool.false_eq_true, if_false, htp']
    norm_num [htp']
    rw [show (9:Nat) = 8 + 1 from rfl, fetchPagesLoop_succ]
    simp [hB2]

/-- A three-page feed reporting `totalPages = 3` with one event per page. -/
def feedThreePages : Nat → PageResp := fun p =>
  if p = 1 then .resp 200 (some ⟨some ⟨some [ev10], 3⟩⟩)
  else if p = 2 then .resp 200 (some ⟨some ⟨some [ev17], 3⟩⟩)
  else if p = 3 then .resp 200 (some ⟨some ⟨some [ev25], 3⟩⟩)
  else .resp 200 (some ⟨some ⟨some [], 3⟩⟩)

/-- A feed reporting `totalPages = 3` whose page 2 is empty. -/
def feedEmptyPageTwo : Nat → PageResp := fun p =>
  if p = 1 then .resp 200 (some ⟨some ⟨some [ev10], 3⟩⟩)
  else .resp 200 (some ⟨some ⟨some [], 3⟩⟩)

theorem c6_pagination_termination_witness :
    (fetchLastFmData feedThreePages 10).2 = [1, 2, 3] ∧
    (∃ evs, (fetchLastFmData feedThreePages 10).1 = Except.ok evs) ∧
    (fetchLastFmData feedEmptyPageTwo 10).2 = [1, 2] ∧
    (∃ evs, (fetchLastFmData feedEmptyPageTwo 10).1 = Except.ok evs) :=
  c6_pagination_termination feedThreePages feedEmptyPageTwo
    [ev10] [ev17] [ev25] [ev10] 3 3
    rfl (by decide) rfl (by decide) rfl (by decide) rfl (by decide) (by decide) rfl

/-- Unfolding of a cycle whose fetch raised: the error propagates, the
store is exactly the schema-initialized input (checkpoint untouched beyond
the seed), and the trace holds only the page GETs. -/
theorem syncScrobbleVault_err_unfold (o : Oracles) (fuel now : Nat) (db : DB) (e : FetchErr)
    (hf : (fetchLastFmData o.pages fuel).1 = Except.error e) :
    syncScrobbleVault o fuel now db =
      (some e, initSyncTable db,
        (fetchLastFmData o.pages fuel).2.map
          (fun p => Op.getPage (db.syncRow.getD 0 + 1) now p)) := by
  have hstart : getLastSyncedScrobble (initSyncTable db) = some (db.syncRow.getD 0) := by
    rw [getLastSyncedScrobble, initSyncTable_syncRow]
  simp only [syncScrobbleVault, hf, hstart]

/-- Unfolding of a cycle that fetched zero events: the empty-fetch
short-circuit skips every phase and leaves the checkpoint untouched
beyond the seed. -/
theorem syncScrobbleVault_nil_unfold (o : Oracles) (fuel now : Nat) (db : DB)
    (hf : (fetchLastFmData o.pages fuel).1 = Except.ok []) :
    syncScrobbleVault o fuel now db =
      (none, initSyncTable db,
        (fetchLastFmData o.pages fuel).2.map
          (fun p => Op.getPage (db.syncRow.getD 0 + 1) now p)) := by
  have hstart : getLastSyncedScrobble (initSyncTable db) = some (db.syncRow.getD 0) := by
    rw [getLastSyncedScrobble, initSyncTable_syncRow]
  simp only [syncScrobbleVault, hf, hstart, List.isEmpty_nil, if_true]

/-- C5 (amended).  Schema initialization seeds a missing checkpoint row
with value 0, so on a deployment that has never synced the first cycle's
window starts at 1 = 0 + 1 — the `absent` branch that would start at 0 is
unreachable once `init_sync_table` has run.  Every cycle's page requests
carry window start checkpoint + 1 (over the seeded checkpoint) and window
end `now`. -/
theorem c5_window_computation (o : Oracles) (fuel now : Nat) (db : DB) :
    (initSyncTable db).syncRow = some (db.syncRow.getD 0) ∧
    ∀ st et p, Op.getPage st et p ∈ (syncScrobbleVault o fuel now db).2.2 →
      st = db.syncRow.getD 0 + 1 ∧ et = now := by
  refine ⟨initSyncTable_syncRow db, ?_⟩
  intro st et p hmem
  rcases hfr : (fetchLastFmData o.pages fuel).1 with e | evs
  · rw [syncScrobbleVault_err_unfold o fuel now db e hfr] at hmem
    obtain ⟨p', _, hp⟩ := List.mem_map.1 hmem
    injection hp with ha hb hc
    exact ⟨ha.symm, hb.symm⟩
  · rcases evs with _ | ⟨a, l⟩
    · rw [syncScrobbleVault_nil_unfold o fuel now db hfr] at hmem
      obtain ⟨p', _, hp⟩ := List.mem_map.1 hmem
      injection hp with ha hb hc
      exact ⟨ha.symm, hb.symm⟩
    · rw [syncScrobbleVault_ok_unfold o fuel now db (a :: l) hfr (by simp)] at hmem
      simp only [List.mem_append] at hmem
      rcases hmem with ((((hm | hm) | hm) | hm) | hm) | hm
      · obtain ⟨p', _, hp⟩ := List.mem_map.1 hm
        injection hp with ha hb hc
        exact ⟨ha.symm, hb.symm⟩
      · rcases syncNewArtists_ops o (a :: l) _ _ hm with ⟨q, hq⟩ | ⟨i, hi⟩
        · exact Op.noConfusion hq
        · exact Op.noConfusion hi
      · rcases syncNewAlbums_ops o (a :: l) _ _ hm with ⟨q, hq⟩ | ⟨i, hi⟩
        · exact Op.noConfusion hq
        · exact Op.noConfusion hi
      · rcases syncNewTracks_ops o (a :: l) _ _ hm with ⟨q, hq⟩ | ⟨i, hi⟩
        · exact Op.noConfusion hq
        · exact Op.noConfusion hi
      · rw [runScrobbleInserts_trace] at hm
        obtain ⟨s, _, hs⟩ := List.mem_map.1 hm
        exact Op.noConfusion hs
      · rcases List.mem_singleton.1 hm with h
        exact Op.noConfusion h

theorem c5_window_computation_witness :
    (initSyncTable ⟨[], [], [], [], some 41⟩).syncRow =
      some ((⟨[], [], [], [], some 41⟩ : DB).syncRow.getD 0) ∧
    (1 : Nat) = emptyDB.syncRow.getD 0 + 1 ∧ (1000 : Nat) = 1000 :=
  ⟨(c5_window_computation oracleTs 5 1000 ⟨[], [], [], [], some 41⟩).1,
    ((c5_window_computation oracleTs 5 1000 emptyDB).2 1 1000 1 (by decide)).1,
    ((c5_window_computation oracleTs 5 1000 emptyDB).2 1 1000 1 (by decide)).2⟩

/-- C5 counterexample: on a deployment that has never synced (the
checkpoint row absent), the cycle requests its first page with window
start 1 — not 0 — because `init_sync_table` has just seeded the row with
value 0 and the orchestrator computes checkpoint + 1. -/
theorem c5_never_synced_starts_at_one :
    emptyDB.syncRow = none ∧
    (syncScrobbleVault oracleTs 5 1000 emptyDB).2.2.head? =
      some (Op.getPage 1 1000 1) ∧
    Op.getPage 0 1000 1 ∉ (syncScrobbleVault oracleTs 5 1000 emptyDB).2.2 := by
  refine ⟨rfl, by decide, by decide⟩

/-- C3 (amended).  Errors during event pagination — transport failures,
non-200 statuses, undecodable bodies — abort the cycle with no
within-cycle retry, leaving the store exactly as schema initialization
left it (checkpoint untouched).  Errors during entity-metadata lookups do
NOT bubble up: the client catches transport errors and swallows non-200
statuses into an empty result, the resolver skips the entity with a
warning, and a cycle whose pagination succeeded always completes without
error. -/
theorem c3_error_propagation (o : Oracles) (fuel now : Nat) (db : DB) :
    (∀ e, (fetchLastFmData o.pages fuel).1 = Except.error e →
      syncScrobbleVault o fuel now db =
        (some e, initSyncTable db,
          (fetchLastFmData o.pages fuel).2.map
            (fun p => Op.getPage (db.syncRow.getD 0 + 1) now p))) ∧
    (∀ evs, (fetchLastFmData o.pages fuel).1 = Except.ok evs →
      (syncScrobbleVault o fuel now db).1 = none) ∧
    metaResult (MetaResp.netError : MetaResp TrackInfo) = none ∧
    (∀ (s : Nat) (i : Option TrackInfo), s ≠ 200 →
      metaResult (MetaResp.resp s i) = none) := by
  refine ⟨?_, ?_, rfl, ?_⟩
  · intro e he
    exact syncScrobbleVault_err_unfold o fuel now db e he
  · intro evs he
    rcases evs with _ | ⟨a, l⟩
    · rw [syncScrobbleVault_nil_unfold o fuel now db he]
    · rw [syncScrobbleVault_ok_unfold o fuel now db (a :: l) he (by simp)]
  · intro s i hs
    simp [metaResult, hs]

/-- A feed whose very first page GET fails at transport level. -/
def feedNetDown : Nat → PageResp := fun _ => .netError

/-- Oracles for a feed that is down. -/
def oracleNetDown : Oracles :=
  { pages := feedNetDown
    artist := fun _ => .netError
    album := fun _ => .netError
    track := fun _ => .netError }

theorem c3_error_propagation_witness :
    syncScrobbleVault oracleNetDown 5 1000 emptyDB =
      (some FetchErr.network, initSyncTable emptyDB,
        (fetchLastFmData oracleNetDown.pages 5).2.map
          (fun p => Op.getPage (emptyDB.syncRow.getD 0 + 1) 1000 p)) ∧
    (syncScrobbleVault oracleTs 5 1000 emptyDB).1 = none ∧
    metaResult (MetaResp.netError : MetaResp TrackInfo) = none ∧
    metaResult (MetaResp.resp 500 (some (⟨"t", none, "a", none, none⟩ : TrackInfo))) = none :=
  ⟨(c3_error_propagation oracleNetDown 5 1000 emptyDB).1 FetchErr.network rfl,
    (c3_error_propagation oracleTs 5 1000 emptyDB).2.1 [ev10, ev25, ev17] rfl,
    (c3_error_propagation oracleTs 5 1000 emptyDB).2.2.1,
    (c3_error_propagation oracleTs 5 1000 emptyDB).2.2.2 500
      (some (⟨"t", none, "a", none, none⟩ : TrackInfo)) (by decide)⟩

/-- C3 counterexample: a transport error during an entity-metadata lookup
does not stop the cycle and does not leave the checkpoint untouched — the
track lookup below fails at transport level, yet the cycle completes
without error and advances the checkpoint to 25. -/
theorem c3_metadata_error_swallowed :
    oracleTs.track (TrackQuery.byName "artist one" "song one") = MetaResp.netError ∧
    Op.fetchTrack (TrackQuery.byName "artist one" "song one") ∈
      (syncScrobbleVault oracleTs 5 1000 emptyDB).2.2 ∧
    (syncScrobbleVault oracleTs 5 1000 emptyDB).1 = none ∧
    (syncScrobbleVault oracleTs 5 1000 emptyDB).2.1.syncRow = some 25 := by
  refine ⟨rfl, by decide, by decide, by decide⟩

/-- C4 (amended).  An event missing a mandatory field (artist name, track
name, or timestamp missing or zero) is rejected before insert and never
creates a scrobbles row — but its timestamp still participates in the
checkpoint computation: the value advanced to is the maximum `uts` over
ALL fetched events of the cycle, stored or rejected alike. -/
theorem c4_rejected_events (o : Oracles) (fuel now : Nat) (db : DB) (evs : List Scrobble)
    (hf : (fetchLastFmData o.pages fuel).1 = Except.ok evs) (hne : evs ≠ []) :
    (∀ (d : DB) (s : Scrobble), scrobbleRejected s = true → insertScrobble d s = d) ∧
    (syncScrobbleVault o fuel now db).2.1.syncRow = some (maxUts evs) := by
  constructor
  · intro d s hs
    simp [insertScrobble, hs]
  · rw [syncScrobbleVault_ok_unfold o fuel now db evs hf hne]
    rw [updateLastSyncedScrobble]
    have h4 : (runScrobbleInserts evs
        (syncNewTracks o evs
          (syncNewAlbums o evs (syncNewArtists o evs (initSyncTable db)).1).1).1).1.syncRow =
        some (db.syncRow.getD 0) := by
      rw [runScrobbleInserts_syncRow, syncNewTracks_syncRow, syncNewAlbums_syncRow,
        syncNewArtists_syncRow, initSyncTable_syncRow]
    simp [h4]

/-- An event with a missing artist name but the largest timestamp of its
batch. -/
def evBad : Scrobble := ⟨"", none, "Song X", none, "", none, 99, false⟩

/-- A single-page feed whose batch mixes one valid event (uts 10) and one
event missing its artist name (uts 99). -/
def oracleBadEvent : Oracles :=
  { pages := fun p =>
      if p = 1 then .resp 200 (some ⟨some ⟨some [ev10, evBad], 1⟩⟩)
      else .resp 200 (some ⟨none⟩)
    artist := fun _ => .netError
    album := fun _ => .netError
    track := fun _ => .netError }

/-- The same feed with the malformed event removed. -/
def oracleGoodEvent : Oracles :=
  { pages := fun p =>
      if p = 1 then .resp 200 (some ⟨some ⟨some [ev10], 1⟩⟩)
      else .resp 200 (some ⟨none⟩)
    artist := fun _ => .netError
    album := fun _ => .netError
    track := fun _ => .netError }

theorem c4_rejected_events_witness :
    insertScrobble emptyDB evBad = emptyDB ∧
    (syncScrobbleVault oracleBadEvent 5 1000 emptyDB).2.1.syncRow =
      some (maxUts [ev10, evBad]) :=
  ⟨(c4_rejected_events oracleBadEvent 5 1000 emptyDB [ev10, evBad] rfl
      (by decide)).1 emptyDB evBad (by decide),
    (c4_rejected_events oracleBadEvent 5 1000 emptyDB [ev10, evBad] rfl (by decide)).2⟩

/-- C4 counterexample: the event `evBad` is missing its artist name, so it
is rejected and never stored — yet it DOES affect the checkpoint
computation of the cycle that fetched it: with it the checkpoint advances
to 99, without it to 10. -/
theorem c4_rejected_event_moves_checkpoint :
    scrobbleRejected evBad = true ∧
    (syncScrobbleVault oracleBadEvent 5 1000 emptyDB).2.1.scrobbles =
      [⟨none, 10, "Artist One", "Song One", none⟩] ∧
    (syncScrobbleVault oracleBadEvent 5 1000 emptyDB).2.1.syncRow = some 99 ∧
    (syncScrobbleVault oracleGoodEvent 5 1000 emptyDB).2.1.syncRow = some 10 := by
  refine ⟨by decide, by decide, by decide, by decide⟩

/-- C1.  Evaluation of the cycle at the failing input: three valid events
whose track-metadata lookups fail (the track lookup oracle is down, so
every stored event carries a NULL `track_id`).  Running the same cycle
twice against the same upstream events does NOT yield identical storage:
the unique index behind `ON CONFLICT (track_id, listened_at) DO NOTHING`
treats NULL `track_id` values as distinct, so the second run re-inserts
all three rows and the scrobbles table doubles — contradicting both the
idempotence claim and the table's own docstring ("Unique constraint on
(track_id, listened_at) prevents duplicate scrobbles"). -/
theorem c1_null_track_breaks_idempotence :
    (syncScrobbleVault oracleTs 5 1000 emptyDB).2.1.scrobbles =
      [⟨none, 10, "Artist One", "Song One", none⟩,
       ⟨none, 25, "Artist One", "Song Two", none⟩,
       ⟨none, 17, "Artist Two", "Song Three", none⟩] ∧
    (syncScrobbleVault oracleTs 5 1000
        (syncScrobbleVault oracleTs 5 1000 emptyDB).2.1).2.1.scrobbles =
      [⟨none, 10, "Artist One", "Song One", none⟩,
       ⟨none, 25, "Artist One", "Song Two", none⟩,
       ⟨none, 17, "Artist Two", "Song Three", none⟩,
       ⟨none, 10, "Artist One", "Song One", none⟩,
       ⟨none, 25, "Artist One", "Song Two", none⟩,
       ⟨none, 17, "Artist Two", "Song Three", none⟩] := by
  refine ⟨by decide, by decide⟩

theorem gateCall_last (R : ℚ) (st : GateState) (now slack : ℚ) :
    (gateCall R st now slack).2.lastRequestTime = (gateCall R st now slack).1 := rfl

/-- One gated call starts no earlier than the recorded previous start plus
the configured interval. -/
theorem gateCall_start_ge (R : ℚ) (st : GateState) (now slack : ℚ)
    (h1 : 0 ≤ slack) (h2 : st.lastRequestTime ≤ now) :
    st.lastRequestTime + R / 1000 ≤ (gateCall R st now slack).1 := by
  simp only [gateCall]
  split
  · rename_i hw
    have hdiv : (R - (now - st.lastRequestTime) * 1000) / 1000 =
        R / 1000 - (now - st.lastRequestTime) := by ring
    rw [hdiv]
    linarith
  · rename_i hw
    push_neg at hw
    have hRle : R / 1000 ≤ now - st.lastRequestTime := by
      rw [div_le_iff₀ (by norm_num : (0:ℚ) < 1000)]
      linarith
    linarith

theorem gateStarts_chain_aux (R : ℚ) (calls : List (ℚ × ℚ)) :
    ∀ st : GateState, validCalls R st calls = true →
      List.Chain' (fun a b => a + R / 1000 ≤ b) (gateStarts R st calls) ∧
      ∀ b ∈ (gateStarts R st calls).head?, st.lastRequestTime + R / 1000 ≤ b := by
  induction calls with
  | nil =>
    intro st _
    exact ⟨List.chain'_nil, by simp [gateStarts]⟩
  | cons c rest ih =>
    intro st h
    obtain ⟨now, slack⟩ := c
    simp only [validCalls, Bool.and_eq_true, decide_eq_true_eq] at h
    obtain ⟨⟨h1, h2⟩, h3⟩ := h
    obtain ⟨ihChain, ihHead⟩ := ih (gateCall R st now slack).2 h3
    constructor
    · rw [gateStarts, List.chain'_cons']
      refine ⟨?_, ihChain⟩
      intro y hy
      have := ihHead y hy
      rwa [gateCall_last] at this
    · intro b hb
      simp only [gateStarts, List.head?_cons, Option.mem_def, Option.some.injEq] at hb
      subst hb
      exact gateCall_start_ge R st now slack h1 h2

/-- C8.  The global admission gate: the `asyncio.Lock` makes the
read-wait-update section of `_rate_limited_get` atomic, so concurrent
callers execute it serially; for any well-formed serialized sequence of
gated calls (non-negative sleep slack, monotone clock observations), every
two consecutive call start times are at least `RATE_LIMIT_MS` milliseconds
(`R / 1000` seconds) apart. -/
theorem c8_consecutive_starts_spaced (R : ℚ) (st : GateState) (calls : List (ℚ × ℚ))
    (h : validCalls R st calls = true) :
    List.Chain' (fun a b => a + R / 1000 ≤ b) (gateStarts R st calls) :=
  (gateStarts_chain_aux R calls st h).1

theorem c8_consecutive_starts_spaced_witness :
    validCalls 200 ⟨0⟩ [(0, 0), (1/4, 0), (1, 1/50)] = true ∧
    List.Chain' (fun a b => a + 200 / 1000 ≤ b)
      (gateStarts 200 ⟨0⟩ [(0, 0), (1/4, 0), (1, 1/50)]) :=
  ⟨by norm_num [validCalls, gateCall],
    c8_consecutive_starts_spaced 200 ⟨0⟩ [(0, 0), (1/4, 0), (1, 1/50)]
      (by norm_num [validCalls, gateCall])⟩

/-- Whether an operation is an artist-metadata GET. -/
def isFetchArtistOp : Op → Bool
  | .fetchArtist _ => true
  | _ => false

theorem pyOrNone_eq_some {x : Option String} {m : String} (h : pyOrNone x = some m) :
    m ≠ "" := by
  rcases x with _ | s
  · simp [pyOrNone] at h
  · by_cases hs : s = "" <;> simp [pyOrNone, hs] at h
    subst h
    exact hs

/-- C7 (amended).  A batch containing the same normalized artist twice
(first without an mbid, then with one) folds to exactly one
representative, keeping the first occurrence's display name and the first
non-null mbid; when that artist is new, exactly one metadata GET is
issued, by the winning mbid; and at most one artist row is stored — whose
mbid is taken from the fetched metadata (so it is populated exactly when
the API response carries an mbid, not automatically). -/
theorem c7_dedup_single_fetch (s1 s2 : Scrobble) (o : Oracles) (db : DB) (m : String)
    (h1 : s1.artistText ≠ "") (h2 : s2.artistText ≠ "")
    (hnorm : normalize s2.artistText = normalize s1.artistText)
    (hm1 : pyOrNone s1.artistMbid = none) (hm2 : pyOrNone s2.artistMbid = some m)
    (hnew : artistExists db s1.artistText = false) :
    uniqueArtists [s1, s2] = [(normalize s1.artistText, ⟨s1.artistText, some m⟩)] ∧
    (syncNewArtists o [s1, s2] db).2.filter isFetchArtistOp =
      [Op.fetchArtist (ArtistQuery.byMbid m)] ∧
    (syncNewArtists o [s1, s2] db).1.artists = db.artists ++
      (match metaResult (o.artist (ArtistQuery.byMbid m)) with
       | some info =>
         if artistHasNorm db (normalize info.name) then []
         else [⟨info.name, normalize info.name, pyOrNone info.mbid⟩]
       | none => []) := by
  have hmne : m ≠ "" := pyOrNone_eq_some hm2
  have ha : uniqueArtists [s1, s2] =
      [(normalize s1.artistText, ⟨s1.artistText, some m⟩)] := by
    simp [uniqueArtists, artistRefStep, h1, h2, hm1, hm2, hnorm]
  refine ⟨ha, ?_, ?_⟩
  · rcases hM : metaResult (o.artist (ArtistQuery.byMbid m)) with _ | info
    · simp [syncNewArtists, ha, runArtistFetches, artistInfoQuery, h1, hmne, hnew, hM,
        isFetchArtistOp]
    · simp [syncNewArtists, ha, runArtistFetches, artistInfoQuery, h1, hmne, hnew, hM,
        isFetchArtistOp, insertArtist]
  · rcases hM : metaResult (o.artist (ArtistQuery.byMbid m)) with _ | info
    · simp [syncNewArtists, ha, runArtistFetches, artistInfoQuery, h1, hmne, hnew, hM]
    · rcases hEx : artistHasNorm db (normalize info.name) with _ | _
      · simp [syncNewArtists, ha, runArtistFetches, artistInfoQuery, h1, hmne, hnew, hM,
          insertArtist, hEx]
      · simp [syncNewArtists, ha, runArtistFetches, artistInfoQuery, h1, hmne, hnew, hM,
          insertArtist, hEx]

/-- A batch with the same normalized artist twice: first without an mbid,
then with one. -/
def sFoo : Scrobble := ⟨"Foo", none, "Track A", none, "", none, 5, false⟩

/-- Second reference to the same artist, carrying an mbid. -/
def sFooMbid : Scrobble := ⟨"foo ", some "mbid-123", "Track B", none, "", none, 6, false⟩

/-- An artist endpoint that answers every lookup with metadata carrying no
mbid field. -/
def oracleArtistNoMbid : Oracles :=
  { pages := fun _ => .resp 200 (some ⟨none⟩)
    artist := fun _ => .resp 200 (some ⟨"Foo", none⟩)
    album := fun _ => .netError
    track := fun _ => .netError }

theorem c7_dedup_single_fetch_witness :
    uniqueArtists [sFoo, sFooMbid] =
      [(normalize sFoo.artistText, ⟨sFoo.artistText, some "mbid-123"⟩)] ∧
    (syncNewArtists oracleArtistNoMbid [sFoo, sFooMbid] emptyDB).2.filter isFetchArtistOp =
      [Op.fetchArtist (ArtistQuery.byMbid "mbid-123")] ∧
    (syncNewArtists oracleArtistNoMbid [sFoo, sFooMbid] emptyDB).1.artists =
      emptyDB.artists ++
      (match metaResult (oracleArtistNoMbid.artist (ArtistQuery.byMbid "mbid-123")) with
       | some info =>
         if artistHasNorm emptyDB (normalize info.name) then []
         else [⟨info.name, normalize info.name, pyOrNone info.mbid⟩]
       | none => []) :=
  c7_dedup_single_fetch sFoo sFooMbid oracleArtistNoMbid emptyDB "mbid-123"
    (by decide) (by decide) (by decide) (by decide) (by decide) (by decide)

/-- C7 counterexample: the batch contains the same normalized artist
twice, once with an mbid and once without; it resolves to exactly one
stored artist, but that artist's mbid is NOT populated — the stored mbid
comes from the fetched metadata (which here carries none), not from the
deduplicated event reference. -/
theorem c7_stored_mbid_not_populated :
    uniqueArtists [sFoo, sFooMbid] = [("foo", ⟨"Foo", some "mbid-123"⟩)] ∧
    (syncNewArtists oracleArtistNoMbid [sFoo, sFooMbid] emptyDB).1.artists =
      [⟨"Foo", "foo", none⟩] := by
  refine ⟨by decide, by decide⟩

theorem runTrackFetches_queries (o : Oracles) (l : List ((String × String) × Option String))
    (db : DB) (q : TrackQuery) (h : Op.fetchTrack q ∈ (runTrackFetches o l db).2) :
    ∃ kp, kp ∈ l ∧ trackInfoQuery kp.1.1 kp.1.2 kp.2 = some q := by
  induction l generalizing db with
  | nil => simp [runTrackFetches] at h
  | cons kp rest ih =>
    rcases hq : trackInfoQuery kp.1.1 kp.1.2 kp.2 with _ | q'
    · simp only [runTrackFetches, hq] at h
      obtain ⟨kp', hmem, hkp⟩ := ih db h
      exact ⟨kp', List.mem_cons_of_mem kp hmem, hkp⟩
    · rcases hm : metaResult (o.track q') with _ | info
      · simp only [runTrackFetches, hq, hm, List.mem_cons] at h
        rcases h with heq | h
        · injection heq with hqq
          exact ⟨kp, List.mem_cons_self kp rest, by rw [hq, hqq]⟩
        · obtain ⟨kp', hmem, hkp⟩ := ih db h
          exact ⟨kp', List.mem_cons_of_mem kp hmem, hkp⟩
      · simp only [runTrackFetches, hq, hm, List.mem_cons] at h
        rcases h with heq | heq | h
        · injection heq with hqq
          exact ⟨kp, List.mem_cons_self kp rest, by rw [hq, hqq]⟩
        · exact absurd heq (by simp)
        · obtain ⟨kp', hmem, hkp⟩ := ih (insertTrack db info) h
          exact ⟨kp', List.mem_cons_of_mem kp hmem, hkp⟩

theorem trackRefStep_keys (acc : List ((String × String) × Option String)) (s : Scrobble)
    (k : String × String) (h : k ∈ (trackRefStep acc s).map Prod.fst) :
    k ∈ acc.map Prod.fst ∨ k = (normalize s.artistText, normalize s.name) := by
  by_cases hcond : s.artistText = "" ∨ s.name = ""
  · simp only [trackRefStep, if_pos hcond] at h
    exact .inl h
  · rcases hfind : (acc.find? fun kp =>
        decide (kp.1 = (normalize s.artistText, normalize s.name))) with _ | kp'
    · simp only [trackRefStep, if_neg hcond, hfind, List.map_append, List.map_cons,
        List.map_nil, List.mem_append, List.mem_singleton] at h
      exact h
    · simp only [trackRefStep, if_neg hcond, hfind] at h
      by_cases hupd : kp'.2 = none ∧ pyOrNone s.mbid ≠ none
      · rw [if_pos hupd, List.map_map] at h
        have hcomp : (Prod.fst ∘ fun kp2 =>
            if kp2.1 = (normalize s.artistText, normalize s.name) then
              (kp2.1, pyOrNone s.mbid) else kp2) =
            (Prod.fst : (String × String) × Option String → String × String) := by
          funext x
          by_cases hx : x.1 = (normalize s.artistText, normalize s.name) <;>
            simp [hx]
        rw [hcomp] at h
        exact .inl h
      · rw [if_neg hupd] at h
        exact .inl h

theorem uniqueTracks_keys_aux (evs : List Scrobble) :
    ∀ (acc : List ((String × String) × Option String)) (k : String × String),
      k ∈ (evs.foldl trackRefStep acc).map Prod.fst →
      k ∈ acc.map Prod.fst ∨
        ∃ s, s ∈ evs ∧ k = (normalize s.artistText, normalize s.name) := by
  induction evs with
  | nil =>
    intro acc k h
    exact .inl h
  | cons s rest ih =>
    intro acc k h
    rcases ih (trackRefStep acc s) k h with hacc | ⟨s', hs', hk⟩
    · rcases trackRefStep_keys acc s k hacc with hacc' | hk
      · exact .inl hacc'
      · exact .inr ⟨s, List.mem_cons_self s rest, hk⟩
    · exact .inr ⟨s', List.mem_cons_of_mem s hs', hk⟩

/-- C9 (amended).  For a surviving reference the metadata lookup is by
mbid when one is known; otherwise the artist lookup uses the reference's
display name, while album and track lookups use the NORMALIZED
(lowercased, trimmed) names — every track query issued by the resolver
comes from a deduplicated key whose components are normalized forms of the
event's names.  A reference with neither a usable name nor an mbid
produces no request and no insert: the fetch returns an empty result after
a logged error and the resolver skips it, not a fatal error. -/
theorem c9_lookup_preference (o : Oracles) (db : DB) (evs : List Scrobble) :
    (∀ (a t m : String), m ≠ "" → trackInfoQuery a t (some m) = some (.byMbid m)) ∧
    (∀ (a t : String), a ≠ "" → t ≠ "" → trackInfoQuery a t none = some (.byName a t)) ∧
    (∀ (name : String), name ≠ "" → artistInfoQuery name none = some (.byName name)) ∧
    (∀ (t : String), trackInfoQuery "" t none = none) ∧
    (∀ (t : String), runTrackFetches o [(("", t), none)] db = (db, [])) ∧
    (∀ q, Op.fetchTrack q ∈ (syncNewTracks o evs db).2 →
      ∃ kp, kp ∈ uniqueTracks evs ∧ trackInfoQuery kp.1.1 kp.1.2 kp.2 = some q) ∧
    (∀ kp, kp ∈ uniqueTracks evs →
      ∃ s, s ∈ evs ∧ kp.1 = (normalize s.artistText, normalize s.name)) := by
  refine ⟨?_, ?_, ?_, ?_, ?_, ?_, ?_⟩
  · intro a t m hm
    simp [trackInfoQuery, hm]
  · intro a t ha ht
    simp [trackInfoQuery, ha, ht]
  · intro name hn
    simp [artistInfoQuery, hn]
  · intro t
    simp [trackInfoQuery]
  · intro t
    simp [runTrackFetches, trackInfoQuery]
  · intro q h
    obtain ⟨kp, hmem, hkp⟩ := runTrackFetches_queries o _ db q h
    exact ⟨kp, (List.mem_filter.1 hmem).1, hkp⟩
  · intro kp hkp
    have h := uniqueTracks_keys_aux evs [] kp.1
      (List.mem_map_of_mem Prod.fst hkp)
    rcases h with habs | h
    · simp at habs
    · exact h

/-- A scrobble whose display names carry upper case and spacing. -/
def sAbba : Scrobble := ⟨"ABBA", none, "Hello World", none, "", none, 7, false⟩

theorem c9_lookup_preference_witness :
    trackInfoQuery "abba" "hello world" (some "m1") = some (.byMbid "m1") ∧
    trackInfoQuery "abba" "hello world" none = some (.byName "abba" "hello world") ∧
    artistInfoQuery "ABBA" none = some (.byName "ABBA") ∧
    trackInfoQuery "" "x" none = none ∧
    runTrackFetches oracleArtistNoMbid [(("", "x"), none)] emptyDB = (emptyDB, []) ∧
    ∃ kp, kp ∈ uniqueTracks [sAbba] ∧
      trackInfoQuery kp.1.1 kp.1.2 kp.2 =
        some (TrackQuery.byName "abba" "hello world") :=
  ⟨(c9_lookup_preference oracleArtistNoMbid emptyDB [sAbba]).1 "abba" "hello world" "m1"
      (by decide),
    (c9_lookup_preference oracleArtistNoMbid emptyDB [sAbba]).2.1 "abba" "hello world"
      (by decide) (by decide),
    (c9_lookup_preference oracleArtistNoMbid emptyDB [sAbba]).2.2.1 "ABBA" (by decide),
    (c9_lookup_preference oracleArtistNoMbid emptyDB [sAbba]).2.2.2.1 "x",
    (c9_lookup_preference oracleArtistNoMbid emptyDB [sAbba]).2.2.2.2.1 "x",
    (c9_lookup_preference oracleArtistNoMbid emptyDB [sAbba]).2.2.2.2.2.1
      (TrackQuery.byName "abba" "hello world") (by decide)⟩

/-- C9 counterexample: the reference's display names are "ABBA" and
"Hello World", but the issued track lookup uses the normalized names
"abba" / "hello world" — no query with the display names is ever sent. -/
theorem c9_display_name_not_used :
    (syncNewTracks oracleArtistNoMbid [sAbba] emptyDB).2 =
      [Op.fetchTrack (TrackQuery.byName "abba" "hello world")] ∧
    Op.fetchTrack (TrackQuery.byName "ABBA" "Hello World") ∉
      (syncNewTracks oracleArtistNoMbid [sAbba] emptyDB).2 := by
  refine ⟨by decide, by decide⟩

/-- C10.  The stored identity key `artist_name_norm` is computed from the
`name` field of the fetched API metadata, while the existence check uses
the normalized name of the event reference.  When the two differ
(autocorrect), a later run over the same reference misses the existence
filter and fetches the artist again — but the re-insert is a
conflict-no-op and at most one stored row per normalized key is
preserved. -/
theorem c10_autocorrect_refetch (name : String) (info : ArtistInfo) (o : Oracles)
    (db : DB) (s : Scrobble)
    (hs1 : s.artistText = name) (hs2 : pyOrNone s.artistMbid = none)
    (hname : name ≠ "")
    (hq : o.artist (ArtistQuery.byName name) = MetaResp.resp 200 (some info))
    (hne : normalize info.name ≠ normalize name)
    (hdb1 : artistHasNorm db (normalize name) = false)
    (hdb2 : artistHasNorm db (normalize info.name) = false) :
    (syncNewArtists o [s] db).1.artists =
      db.artists ++ [⟨info.name, normalize info.name, pyOrNone info.mbid⟩] ∧
    artistExists (syncNewArtists o [s] db).1 name = false ∧
    (syncNewArtists o [s] (syncNewArtists o [s] db).1).2 =
      [Op.fetchArtist (ArtistQuery.byName name), Op.insArtist info] ∧
    (syncNewArtists o [s] (syncNewArtists o [s] db).1).1.artists =
      (syncNewArtists o [s] db).1.artists := by
  have ha : uniqueArtists [s] = [(normalize name, ⟨name, none⟩)] := by
    simp [uniqueArtists, artistRefStep, hs1, hs2, hname]
  have hq2 : metaResult (o.artist (ArtistQuery.byName name)) = some info := by
    simp [hq, metaResult]
  have hrun1 : syncNewArtists o [s] db =
      (insertArtist db info,
        [Op.fetchArtist (ArtistQuery.byName name), Op.insArtist info]) := by
    simp [syncNewArtists, ha, runArtistFetches, artistInfoQuery, hname, artistExists,
      hdb1, hq2]
  have hins1 : insertArtist db info =
      { db with artists :=
          db.artists ++ [⟨info.name, normalize info.name, pyOrNone info.mbid⟩] } := by
    simp [insertArtist, hdb2]
  have hd1miss : artistHasNorm (insertArtist db info) (normalize name) = false := by
    rw [hins1]
    simp only [artistHasNorm] at hdb1 ⊢
    simp [List.any_append, hdb1, hne]
  have hd1hit : artistHasNorm (insertArtist db info) (normalize info.name) = true := by
    rw [hins1]
    simp only [artistHasNorm]
    simp [List.any_append]
  have hrun2 : syncNewArtists o [s] (insertArtist db info) =
      (insertArtist (insertArtist db info) info,
        [Op.fetchArtist (ArtistQuery.byName name), Op.insArtist info]) := by
    simp [syncNewArtists, ha, runArtistFetches, artistInfoQuery, hname, artistExists,
      hd1miss, hq2]
  have hins2 : insertArtist (insertArtist db info) info = insertArtist db info := by
    conv_lhs => rw [insertArtist]
    simp [hd1hit]
  refine ⟨?_, ?_, ?_, ?_⟩
  · rw [hrun1, hins1]
  · rw [hrun1]
    exact hd1miss
  · rw [hrun1, hrun2]
  · rw [hrun1, hrun2, hins2]

/-- A reference whose API metadata comes back autocorrected to a
different display name. -/
def sTypo : Scrobble := ⟨"foo figters", none, "Track C", none, "", none, 8, false⟩

/-- An artist endpoint that autocorrects the misspelled lookup. -/
def oracleAutocorrect : Oracles :=
  { pages := fun _ => .resp 200 (some ⟨none⟩)
    artist := fun q =>
      if q = ArtistQuery.byName "foo figters" then
        .resp 200 (some ⟨"Foo Fighters", some "af-1"⟩)
      else .netError
    album := fun _ => .netError
    track := fun _ => .netError }

theorem c10_autocorrect_refetch_witness :
    (syncNewArtists oracleAutocorrect [sTypo] emptyDB).1.artists =
      emptyDB.artists ++
        [⟨"Foo Fighters", normalize "Foo Fighters", pyOrNone (some "af-1")⟩] ∧
    artistExists (syncNewArtists oracleAutocorrect [sTypo] emptyDB).1 "foo figters" =
      false ∧
    (syncNewArtists oracleAutocorrect [sTypo]
        (syncNewArtists oracleAutocorrect [sTypo] emptyDB).1).2 =
      [Op.fetchArtist (ArtistQuery.byName "foo figters"),
        Op.insArtist ⟨"Foo Fighters", some "af-1"⟩] ∧
    (syncNewArtists oracleAutocorrect [sTypo]
        (syncNewArtists oracleAutocorrect [sTypo] emptyDB).1).1.artists =
      (syncNewArtists oracleAutocorrect [sTypo] emptyDB).1.artists :=
  c10_autocorrect_refetch "foo figters" ⟨"Foo Fighters", some "af-1"⟩ oracleAutocorrect
    emptyDB sTypo rfl (by decide) (by decide) rfl (by decide) (by decide) (by decide)

end ScrobbleVault
